import Mathlib

/-!
Shallow embedding of the idempotency-key-driven atomic-phase execution engine
of the `mars` service (src/mars/atomicity.py, src/mars/services/file.py,
src/mars/models/idempotency_key.py, src/mars/models/file.py,
src/mars/routers/files.py).

Conventions of the embedding:
* The persistent database state visible to this subsystem is `MarsState`:
  the single idempotency-key row for the (user_id, idempotency_key) pair
  under consideration, the `files` rows, and the set of S3 object keys.
* Timestamps are integers (seconds); `datetime.now(timezone.utc)` becomes an
  explicit `now : Int` argument.
* Request bodies arrive already decoded by `orjson.loads` (an external
  library): a decoded body is a `JsonVal`.  Python value equality
  (the `!=` at src/mars/atomicity.py:146) on decoded JSON values is
  structural and insensitive to object-key order (dict equality); it is
  modelled by `pyJsonEq`, which compares key-sorted normal forms.
* Python exceptions become explicit `PyExc` values; an operation that can
  raise returns `Except PyExc _`.
-/

namespace Mars

mutual
/-- Decoded JSON values (the result of `orjson.loads`). -/
inductive JsonVal where
  | null : JsonVal
  | bool (b : Bool) : JsonVal
  | num (n : Int) : JsonVal
  | str (s : String) : JsonVal
  | arr (xs : JsonArr) : JsonVal
  | obj (kvs : JsonObj) : JsonVal
deriving DecidableEq

/-- A JSON array: a list of JSON values. -/
inductive JsonArr where
  | nil : JsonArr
  | cons (hd : JsonVal) (tl : JsonArr) : JsonArr
deriving DecidableEq

/-- A JSON object: an association list of key/value pairs, in decoder
order; a decoder never produces duplicate keys (later keys win). -/
inductive JsonObj where
  | nil : JsonObj
  | cons (key : String) (val : JsonVal) (tl : JsonObj) : JsonObj
deriving DecidableEq
end

/-- Lexicographic order on character lists (by code point), used only to
pick a canonical order of object keys. -/
def charListLt : List Char → List Char → Bool
  | [], [] => false
  | [], _ :: _ => true
  | _ :: _, [] => false
  | a :: as, b :: bs =>
      if a.toNat < b.toNat then true
      else if b.toNat < a.toNat then false
      else charListLt as bs

/-- Canonical (total) order on strings, used only to sort object keys. -/
def strLt (a b : String) : Bool := charListLt a.data b.data

/-- Insert a key/value pair into a key-sorted object. -/
def JsonObj.insertSorted (k : String) (v : JsonVal) : JsonObj → JsonObj
  | .nil => .cons k v .nil
  | .cons k2 v2 tl =>
      if strLt k k2 then .cons k v (.cons k2 v2 tl)
      else .cons k2 v2 (insertSorted k v tl)

mutual
/-- Key-sorted normal form of a JSON value.  Python equality on decoded
JSON values ignores object-key order (dict equality), so two decoded
values are Python-equal precisely when their normal forms coincide
(objects produced by a decoder have no duplicate keys). -/
def JsonVal.normalize : JsonVal → JsonVal
  | .null => .null
  | .bool b => .bool b
  | .num n => .num n
  | .str s => .str s
  | .arr xs => .arr xs.normalize
  | .obj kvs => .obj kvs.normalize

/-- Normal form of a JSON array: normalize every element. -/
def JsonArr.normalize : JsonArr → JsonArr
  | .nil => .nil
  | .cons x xs => .cons x.normalize xs.normalize

/-- Normal form of a JSON object: normalize every value, then sort the
pairs by key (insertion sort). -/
def JsonObj.normalize : JsonObj → JsonObj
  | .nil => .nil
  | .cons k v tl => JsonObj.insertSorted k v.normalize tl.normalize
end

/-- Python `==` on two decoded JSON values (structural,
object-key-order insensitive): equality of key-sorted normal forms. -/
def pyJsonEq (a b : JsonVal) : Bool := decide (a.normalize = b.normalize)

theorem pyJsonEq_refl (a : JsonVal) : pyJsonEq a a = true := by
  simp [pyJsonEq]

theorem pyJsonEq_normalize_eq {a b : JsonVal} (h : pyJsonEq a b = true) :
    a.normalize = b.normalize := by
  simpa [pyJsonEq] using h

/-- First value stored under a key in a JSON object. -/
def JsonObj.lookup : JsonObj → String → Option JsonVal
  | .nil, _ => none
  | .cons k v tl, k2 => if k = k2 then some v else tl.lookup k2

/-- Field access on a decoded JSON value (dict subscript / attribute). -/
def JsonVal.getField : JsonVal → String → Option JsonVal
  | .obj kvs, k => kvs.lookup k
  | _, _ => none

/-- String field access on a decoded JSON value. -/
def JsonVal.getStr (j : JsonVal) (k : String) : Option String :=
  match j.getField k with
  | some (.str s) => some s
  | _ => none

example : pyJsonEq (.obj (.cons "a" (.num 1) (.cons "b" (.num 2) .nil)))
    (.obj (.cons "b" (.num 2) (.cons "a" (.num 1) .nil))) = true := by decide

example : pyJsonEq (.obj (.cons "a" (.num 1) .nil))
    (.obj (.cons "a" (.num 2) .nil)) = false := by decide

namespace IdempotencyKeyRecoveryPoint

/-- src/mars/models/idempotency_key.py: universal initial recovery point. -/
def STARTED : String := "started"

/-- src/mars/models/idempotency_key.py: universal terminal recovery point. -/
def FINISHED : String := "finished"

end IdempotencyKeyRecoveryPoint

namespace FileRecoveryPoint

/-- src/mars/services/file.py: file-workflow recovery point. -/
def FILE_CREATED : String := "FILE_CREATED"

/-- src/mars/services/file.py: file-workflow recovery point. -/
def FILE_UPDATED : String := "FILE_UPDATED"

/-- src/mars/services/file.py: file-workflow recovery point. -/
def FILE_DELETED_IN_S3 : String := "FILE_DELETED_IN_S3"

/-- src/mars/services/file.py: file-workflow recovery point. -/
def FILE_UPLOADED_TO_S3 : String := "FILE_UPLOADED_TO_S3"

end FileRecoveryPoint

/-- One row of the `idempotency_keys` table
(src/mars/models/idempotency_key.py).  The DB-managed `created_at` and
`updated_at` bookkeeping columns of `BaseDAO` are outside the model. -/
structure IdempotencyKeyRec where
  id : Nat
  idempotency_key : String
  user_id : Nat
  last_run_at : Int
  locked_at : Option Int
  request_method : String
  request_params : JsonVal
  request_path : String
  request_path_params : List (String × String)
  response_code : Option Nat
  response_body : Option JsonVal
  recovery_point : String
deriving DecidableEq

/-- One row of the `files` table (src/mars/models/file.py). -/
structure FileRec where
  id : Nat
  idempotency_key_id : Nat
  user_id : Nat
  name : String
  s3_key : String
  upload_completed_at : Option Int
deriving DecidableEq

/-- The committed database (and S3) state visible to this subsystem,
restricted to one (user_id, idempotency_key) pair: `ikey` is the unique
`idempotency_keys` row for that pair, if any.  `nextId` models the
autoincrement id sequence (and the uuid used in `CreateFile.get_s3_key`). -/
structure MarsState where
  ikey : Option IdempotencyKeyRec
  files : List FileRec
  s3 : List String
  nextId : Nat
deriving DecidableEq

/-- The inbound HTTP request as the engine sees it: method, path, path
parameters, and the request body already decoded by `orjson.loads`. -/
structure RequestInfo where
  method : String
  path : String
  path_params : List (String × String)
  body_dict : JsonVal
deriving DecidableEq

/-- Python exceptions raised by this subsystem. -/
inductive PyExc where
  | serializationError : PyExc
  | httpException (status_code : Nat) (detail : String) : PyExc
  | runtimeError (msg : String) : PyExc
  | exception (msg : String) : PyExc
  | noResultFound : PyExc
  | attributeError (msg : String) : PyExc
deriving DecidableEq

/-- `asyncpg.SerializationError` test used at src/mars/atomicity.py:83. -/
def isSerialization : PyExc → Bool
  | .serializationError => true
  | _ => false

/-- src/mars/atomicity.py:20-45: a deferred mutation of the idempotency
record, registered during an atomic phase and applied after commit. -/
inductive ReturnValue where
  | recoveryPoint (name : String) : ReturnValue
  | response (status_code : Nat) (data : JsonVal) : ReturnValue
deriving DecidableEq

/-- `ReturnValue.call` (src/mars/atomicity.py:30-45): how each deferred
effect mutates the idempotency record. -/
def ReturnValue.call : ReturnValue → IdempotencyKeyRec → IdempotencyKeyRec
  | .recoveryPoint name, key => { key with recovery_point := name }
  | .response status_code data, key =>
      { key with
        locked_at := none,
        recovery_point := IdempotencyKeyRecoveryPoint.FINISHED,
        response_code := some status_code,
        response_body := some data }

/-- `AtomicPhase.set_recovery_point` (src/mars/atomicity.py:98-101): the
write-once deferred-effect slot; a second registration raises. -/
def set_recovery_point (slot : Option ReturnValue) (name : String) :
    Except PyExc (Option ReturnValue) :=
  match slot with
  | some _ => .error (.runtimeError "recovery point already set")
  | none => .ok (some (.recoveryPoint name))

/-- `AtomicPhase.set_response` (src/mars/atomicity.py:103-106). -/
def set_response (slot : Option ReturnValue) (status_code : Nat) (data : JsonVal) :
    Except PyExc (Option ReturnValue) :=
  match slot with
  | some _ => .error (.runtimeError "response already set")
  | none => .ok (some (.response status_code data))

/-- Runs a setter against the slot; when the setter raises, the Python
assignment never happens and the slot keeps its previous value. -/
def applySet (slot : Option ReturnValue)
    (f : Option ReturnValue → Except PyExc (Option ReturnValue)) : Option ReturnValue :=
  match f slot with
  | .ok slot2 => slot2
  | .error _ => slot

/-- `IdempotencyKeyDAO.update_by_key(..., locked_at=None)`
(src/mars/atomicity.py:79): clears the lock on the record if the row
exists; an UPDATE matching no row is a no-op. -/
def clearLock (st : MarsState) : MarsState :=
  match st.ikey with
  | none => st
  | some k => { st with ikey := some { k with locked_at := none } }

/-- Result of one atomic phase as observed by the caller: either the
committed state, or a surfaced `fastapi.HTTPException` together with the
state left behind. -/
inductive PhaseOutcome where
  | ok (st : MarsState) : PhaseOutcome
  | httpError (st : MarsState) (status_code : Nat) (detail : String) : PhaseOutcome
deriving DecidableEq

namespace AtomicPhase

/-- `AtomicPhase.LOCK_TIMEOUT` (src/mars/atomicity.py:55): 90 seconds. -/
def LOCK_TIMEOUT : Int := 90

/-- `AtomicPhase.__aexit__` (src/mars/atomicity.py:73-96).
`pre` is the committed state before the phase began; `blockResult` is what
the scoped block produced: either a raised exception (in which case the
transaction is rolled back, so the block changes to `pre` are discarded)
or the state as committed plus the registered deferred effect.  `clearOk`
says whether the best-effort lock-clearing transaction succeeds.
On failure: the lock is cleared (best effort), then a
`SerializationError` is surfaced as HTTP 409 "retry" and anything else as
HTTP 500 "internal server error".  On success with a registered effect, a
second nested phase re-fetches the record and applies the effect; if the
row is missing there, `get_by_key` raises `NoResultFound` inside the
nested phase, whose own exit surfaces HTTP 500. -/
def aexit (pre : MarsState)
    (blockResult : Except PyExc (MarsState × Option ReturnValue))
    (clearOk : Bool) : PhaseOutcome :=
  match blockResult with
  | .error e =>
      let st := if clearOk then clearLock pre else pre
      if isSerialization e then .httpError st 409 "retry"
      else .httpError st 500 "internal server error"
  | .ok (st, none) => .ok st
  | .ok (st, some rv) =>
      match st.ikey with
      | none => .httpError (if clearOk then clearLock st else st) 500 "internal server error"
      | some k => .ok { st with ikey := some (rv.call k) }

end AtomicPhase

/-- Test `key.locked_at and key.locked_at > datetime.now(timezone.utc) -
AtomicPhase.LOCK_TIMEOUT` (src/mars/atomicity.py:151). -/
def lockActive (locked_at : Option Int) (now : Int) : Bool :=
  match locked_at with
  | none => false
  | some t => decide (now - AtomicPhase.LOCK_TIMEOUT < t)

/-- The record created on first sight of a (user, key) pair
(src/mars/atomicity.py:161-171); `last_run_at` takes the column default
`now()`, `recId` the next autoincrement id. -/
def newRecord (req : RequestInfo) (ik : String) (uid : Nat) (now : Int)
    (recId : Nat) : IdempotencyKeyRec :=
  { id := recId,
    idempotency_key := ik,
    user_id := uid,
    last_run_at := now,
    locked_at := some now,
    request_method := req.method,
    request_params := req.body_dict,
    request_path := req.path,
    request_path_params := req.path_params,
    response_code := none,
    response_body := none,
    recovery_point := IdempotencyKeyRecoveryPoint.STARTED }

/-- The scoped block of `AtomicPhaseGroup.start_atomic_phases`
(src/mars/atomicity.py:137-171), before `AtomicPhase.__aexit__` runs.
Note on the lock-refresh branch (lines 154-159): `key` was loaded by
`get_idempotency_key`, which opens its own `session_maker()` session and
closes it before returning, so `key` is a detached ORM instance;
`key.update(last_run_at=..., locked_at=...)` mutates only that detached
Python object and is never flushed to the database.  The committed state
is therefore unchanged on that path. -/
def startAtomicPhasesBlock (st : MarsState) (ik : String) (uid : Nat)
    (now : Int) (req : RequestInfo) :
    Except PyExc (MarsState × Option ReturnValue) :=
  match st.ikey with
  | some key =>
      if pyJsonEq key.request_params req.body_dict then
        if lockActive key.locked_at now then
          .error (.httpException 409 "request in progress")
        else
          .ok (st, none)
      else
        .error (.httpException 409 "param mismatch")
  | none =>
      let st2 : MarsState :=
        { st with
          ikey := some (newRecord req ik uid now st.nextId)
          nextId := st.nextId + 1 }
      .ok (st2, none)

/-- `AtomicPhaseGroup.start_atomic_phases` (src/mars/atomicity.py:137-171)
as observed externally: the scoped block wrapped by
`AtomicPhase.__aexit__`. -/
def start_atomic_phases (st : MarsState) (ik : String) (uid : Nat)
    (now : Int) (req : RequestInfo) (clearOk : Bool) : PhaseOutcome :=
  AtomicPhase.aexit st (startAtomicPhasesBlock st ik uid now req) clearOk

/-- Result of `AtomicPhaseGroup.get_response`. -/
inductive GetResponseResult where
  | ok (response_body : Option JsonVal) (response_code : Option Nat) : GetResponseResult
  | assertionError (msg : String) : GetResponseResult
deriving DecidableEq

/-- `AtomicPhaseGroup.get_response` (src/mars/atomicity.py:129-135):
asserts the record exists and is finished, then replays the cached
response (`ORJSONResponse(key.response_body, key.response_code)`). -/
def get_response (st : MarsState) : GetResponseResult :=
  match st.ikey with
  | none => .assertionError "idempotency key not found"
  | some key =>
      if key.recovery_point = IdempotencyKeyRecoveryPoint.FINISHED then
        .ok key.response_body key.response_code
      else
        .assertionError "idempotency key recovery point is not finished"

/-- `FileDAO.get_by_idempotency_key` (src/mars/models/file.py): first
`files` row whose `idempotency_key_id` matches, if any (`.scalar()`). -/
def get_by_idempotency_key (files : List FileRec) (kid : Nat) : Option FileRec :=
  files.find? (fun f => f.idempotency_key_id == kid)

/-- First value stored under a key in the path parameters. -/
def lookupParam (ps : List (String × String)) (k : String) : Option String :=
  (ps.find? (fun p => p.1 == k)).map (fun p => p.2)

/-- Read a decimal digit string. -/
def decDigits : List Char → Nat → Option Nat
  | [], acc => some acc
  | c :: cs, acc =>
      if 48 ≤ c.toNat ∧ c.toNat ≤ 57 then
        decDigits cs (acc * 10 + (c.toNat - 48))
      else none

/-- Python `int(s)` on a decimal string, without sign or whitespace. -/
def strToNat (s : String) : Option Nat :=
  match s.data with
  | [] => none
  | cs => decDigits cs 0

/-- `int(key.request_path_params["file_id"])`: KeyError when the parameter
is absent, ValueError when it is not a decimal integer. -/
def pathFileId (key : IdempotencyKeyRec) : Except PyExc Nat :=
  match lookupParam key.request_path_params "file_id" with
  | none => .error (.exception "KeyError")
  | some s =>
      match strToNat s with
      | none => .error (.exception "ValueError")
      | some n => .ok n

/-- Replace the `files` row with the given id by its updated image. -/
def updateFileRow (files : List FileRec) (fid : Nat) (g : FileRec → FileRec) :
    List FileRec :=
  files.map (fun f => if f.id == fid then g f else f)

/-- `File.from_orm(file_dao)` serialized into the cached response body.
The pydantic `File` model also exposes the DB-managed `created_at` and
`updated_at` columns, which are outside this model of the row. -/
def fileToJson (f : FileRec) : JsonVal :=
  .obj (.cons "id" (.num f.id)
    (.cons "name" (.str f.name)
      (.cons "upload_completed_at"
        (match f.upload_completed_at with
         | none => .null
         | some t => .num t) .nil)))

namespace HandleFileAction

open FileRecoveryPoint

/-- Scoped block of `HandleFileAction._create_file`
(src/mars/services/file.py:80-92): create the `files` row, then register
the FILE_CREATED recovery point.  `CreateFile.construct` skips
validation, so a missing `name` only fails at attribute access;
`get_s3_key` joins "bucket", a fresh uuid hex (modelled by the id
sequence) and the name.  Non-string `name` values are outside the model. -/
def create_file (st : MarsState) (key : IdempotencyKeyRec) :
    Except PyExc (MarsState × Option ReturnValue) :=
  match key.request_params.getStr "name" with
  | none => .error (.attributeError "name")
  | some nm =>
      let f : FileRec :=
        { id := st.nextId,
          idempotency_key_id := key.id,
          user_id := key.user_id,
          name := nm,
          s3_key := "bucket/" ++ toString st.nextId ++ "/" ++ nm,
          upload_completed_at := none }
      .ok ({ st with files := st.files ++ [f], nextId := st.nextId + 1 },
        some (.recoveryPoint FILE_CREATED))

/-- Scoped block of `HandleFileAction._update_file`
(src/mars/services/file.py:94-109).  Modelled from the spec: the
`UpdateFile` input class is imported by the source but absent from
src/mars/models/file.py; per the spec transition table the step applies
the field updates of the request body (minus `content_base64`) to the
row, here the `name` field, then registers FILE_UPDATED. -/
def update_file (st : MarsState) (key : IdempotencyKeyRec) :
    Except PyExc (MarsState × Option ReturnValue) :=
  match pathFileId key with
  | .error e => .error e
  | .ok fid =>
      match get_by_idempotency_key st.files key.id with
      | none => .error (.runtimeError "Bug! Should have file for key")
      | some f =>
          if f.id ≠ fid then .error (.runtimeError "Bug! File id mismatch")
          else
            let g : FileRec → FileRec := fun f2 =>
              match key.request_params.getStr "name" with
              | some nm => { f2 with name := nm }
              | none => f2
            .ok ({ st with files := updateFileRow st.files f.id g },
              some (.recoveryPoint FILE_UPDATED))

/-- Scoped block of `HandleFileAction._upload_file`
(src/mars/services/file.py:111-121): fetch the row, decode
`content_base64` (KeyError when absent; the base64 payload itself is
outside the model), `put_object` to S3 (overwrite-idempotent), then
register FILE_UPLOADED_TO_S3. -/
def upload_file (st : MarsState) (key : IdempotencyKeyRec) :
    Except PyExc (MarsState × Option ReturnValue) :=
  match get_by_idempotency_key st.files key.id with
  | none => .error (.runtimeError "Bug! Should have file for key at FILE_CREATED")
  | some f =>
      match key.request_params.getStr "content_base64" with
      | none => .error (.exception "KeyError")
      | some _ =>
          let s3 := if st.s3.contains f.s3_key then st.s3 else st.s3 ++ [f.s3_key]
          .ok ({ st with s3 := s3 }, some (.recoveryPoint FILE_UPLOADED_TO_S3))

/-- Scoped block of `HandleFileAction._complete_file_upload`
(src/mars/services/file.py:123-131): set `upload_completed_at` and
register the final 200 response carrying the serialized file. -/
def complete_file_upload (st : MarsState) (key : IdempotencyKeyRec)
    (now : Int) : Except PyExc (MarsState × Option ReturnValue) :=
  match get_by_idempotency_key st.files key.id with
  | none => .error (.runtimeError "Bug! Should have file for key at FILE_UPLOADED_TO_S3")
  | some f =>
      let f2 : FileRec := { f with upload_completed_at := some now }
      .ok ({ st with files := updateFileRow st.files f.id (fun _ => f2) },
        some (.response 200 (fileToJson f2)))

/-- Scoped block of `HandleFileAction._delete_file_s3`
(src/mars/services/file.py:133-142): checks, `delete_object` on S3, then
register FILE_DELETED_IN_S3. -/
def delete_file_s3 (st : MarsState) (key : IdempotencyKeyRec) :
    Except PyExc (MarsState × Option ReturnValue) :=
  match get_by_idempotency_key st.files key.id with
  | none => .error (.runtimeError "Bug! Should have file for key")
  | some f =>
      match pathFileId key with
      | .error e => .error e
      | .ok fid =>
          if f.id ≠ fid then .error (.runtimeError "Bug! File id mismatch")
          else
            .ok ({ st with s3 := st.s3.filter (fun x => !(x == f.s3_key)) },
              some (.recoveryPoint FILE_DELETED_IN_S3))

/-- Scoped block of `HandleFileAction._delete_file_db`
(src/mars/services/file.py:144-152): checks, then `file_dao.delete` on the
row.  Note: the source registers no deferred effect here (neither
`set_recovery_point` nor `set_response`), so the pair result carries
`none`. -/
def delete_file_db (st : MarsState) (key : IdempotencyKeyRec) :
    Except PyExc (MarsState × Option ReturnValue) :=
  match get_by_idempotency_key st.files key.id with
  | none => .error (.runtimeError "Bug! Should have file for key")
  | some f =>
      match pathFileId key with
      | .error e => .error e
      | .ok fid =>
          if f.id ≠ fid then .error (.runtimeError "Bug! File id mismatch")
          else
            .ok ({ st with files := st.files.filter (fun f2 => !(f2.id == f.id)) },
              none)

end HandleFileAction

/-- Which arm of the `match (key.recovery_point, key.request_method)` in
`HandleFileAction.execute` (src/mars/services/file.py:60-78) applies. -/
inductive StepChoice where
  | create_file : StepChoice
  | update_file : StepChoice
  | delete_file_s3 : StepChoice
  | upload_file : StepChoice
  | complete_file_upload : StepChoice
  | delete_file_db : StepChoice
  | finish : StepChoice
  | unknown : StepChoice
deriving DecidableEq

open IdempotencyKeyRecoveryPoint FileRecoveryPoint in
/-- The dispatch table of `HandleFileAction.execute`
(src/mars/services/file.py:60-78), arms in source order. -/
def dispatch (rp method : String) : StepChoice :=
  if rp == STARTED && method == "POST" then .create_file
  else if rp == STARTED && method == "PATCH" then .update_file
  else if rp == STARTED && method == "DELETE" then .delete_file_s3
  else if rp == FILE_CREATED then .upload_file
  else if rp == FILE_UPDATED then .upload_file
  else if rp == FILE_UPLOADED_TO_S3 then .complete_file_upload
  else if rp == FILE_DELETED_IN_S3 then .delete_file_db
  else if rp == FINISHED then .finish
  else .unknown

open IdempotencyKeyRecoveryPoint FileRecoveryPoint in
/-- Whether `(rp, method)` matches any arm of the dispatch table other
than the default (the FINISHED arm, which breaks the loop, counts as a
match). -/
def hasStep (rp method : String) : Bool :=
  (rp == STARTED && (method == "POST" || method == "PATCH" || method == "DELETE"))
  || rp == FILE_CREATED || rp == FILE_UPDATED || rp == FILE_UPLOADED_TO_S3
  || rp == FILE_DELETED_IN_S3 || rp == FINISHED

/-- The scoped block the chosen step runs inside its atomic phase; the
`finish` and `unknown` arms never open a phase and are given an inert
value here (they are intercepted before `stepBlock` is consulted). -/
def stepBlock : StepChoice → MarsState → IdempotencyKeyRec → Int →
    Except PyExc (MarsState × Option ReturnValue)
  | .create_file, st, key, _ => HandleFileAction.create_file st key
  | .update_file, st, key, _ => HandleFileAction.update_file st key
  | .delete_file_s3, st, key, _ => HandleFileAction.delete_file_s3 st key
  | .upload_file, st, key, _ => HandleFileAction.upload_file st key
  | .complete_file_upload, st, key, now => HandleFileAction.complete_file_upload st key now
  | .delete_file_db, st, key, _ => HandleFileAction.delete_file_db st key
  | .finish, st, _, _ => .ok (st, none)
  | .unknown, st, _, _ => .ok (st, none)

/-- Outcome of one iteration of the `while True` loop of
`HandleFileAction.execute`. -/
inductive IterResult where
  | next (st : MarsState) : IterResult
  | done (st : MarsState) : IterResult
  | httpError (st : MarsState) (status_code : Nat) (detail : String) : IterResult
  | fatal (msg : String) : IterResult
deriving DecidableEq

/-- One iteration of `HandleFileAction.execute`
(src/mars/services/file.py:57-78): re-fetch the record, dispatch on
`(recovery_point, request_method)`; the FINISHED arm breaks the loop; the
default arm raises `Exception` outside any phase (`fatal`); a step arm
runs its scoped block inside one atomic phase, whose exit either commits
(loop continues) or surfaces an HTTPException. -/
def executeIter (st : MarsState) (now : Int) (clearOk : Bool) : IterResult :=
  match st.ikey with
  | none => .fatal "AttributeError"
  | some key =>
      match dispatch key.recovery_point key.request_method with
      | .finish => .done st
      | .unknown => .fatal ("Unknown recovery point: " ++ key.recovery_point)
      | c =>
          match AtomicPhase.aexit st (stepBlock c st key now) clearOk with
          | .ok st2 => .next st2
          | .httpError st2 code d => .httpError st2 code d

/-- Outcome of the whole `while True` loop, run with explicit fuel. -/
inductive LoopResult where
  | done (st : MarsState) : LoopResult
  | httpError (st : MarsState) (status_code : Nat) (detail : String) : LoopResult
  | fatal (msg : String) : LoopResult
  | fuelExhausted (st : MarsState) : LoopResult
deriving DecidableEq

/-- `HandleFileAction.execute`: iterate `executeIter` until the loop
breaks, an exception surfaces, or the fuel runs out. -/
def executeLoop : Nat → MarsState → Int → Bool → LoopResult
  | 0, st, _, _ => .fuelExhausted st
  | n + 1, st, now, clearOk =>
      match executeIter st now clearOk with
      | .next st2 => executeLoop n st2 now clearOk
      | .done st2 => .done st2
      | .httpError st2 code d => .httpError st2 code d
      | .fatal m => .fatal m

/-- The recovery-point names this codebase ever passes to
`set_recovery_point`: the four `FileRecoveryPoint` constants
(src/mars/services/file.py:92,109,121,142; src/mars/routers/files.py uses
the same strings). -/
def intermediateRecoveryPoints : List String :=
  [FileRecoveryPoint.FILE_CREATED, FileRecoveryPoint.FILE_UPDATED,
   FileRecoveryPoint.FILE_UPLOADED_TO_S3, FileRecoveryPoint.FILE_DELETED_IN_S3]

/-- Idempotency-key records reachable through the operations of this
subsystem: creation at admission, application of a deferred
recovery-point advance, application of a deferred response, the
best-effort lock clearing, and the admission lock refresh.  Deferred
effects are applied only by phases opened from dispatched steps, and the
dispatcher selects a step only when the current recovery point matched a
non-FINISHED arm, hence the `recovery_point ≠ FINISHED` guards; a
recovery-point advance only ever carries one of the four intermediate
names used by the codebase.  The lock refresh keeps the guard of
src/mars/atomicity.py:155 (and, per the detached-instance note on
`startAtomicPhasesBlock`, does not even reach the database; it is
included so the invariant is proved against the spec-listed operation
as well). -/
inductive ReachableKey : IdempotencyKeyRec → Prop where
  | created (req : RequestInfo) (ik : String) (uid : Nat) (now : Int) (recId : Nat) :
      ReachableKey (newRecord req ik uid now recId)
  | recovery_point_applied (k : IdempotencyKeyRec) (name : String)
      (hk : ReachableKey k)
      (hrp : k.recovery_point ≠ IdempotencyKeyRecoveryPoint.FINISHED)
      (hname : name ∈ intermediateRecoveryPoints) :
      ReachableKey ((ReturnValue.recoveryPoint name).call k)
  | response_applied (k : IdempotencyKeyRec) (status_code : Nat) (data : JsonVal)
      (hk : ReachableKey k)
      (hrp : k.recovery_point ≠ IdempotencyKeyRecoveryPoint.FINISHED) :
      ReachableKey ((ReturnValue.response status_code data).call k)
  | lock_cleared (k : IdempotencyKeyRec) (hk : ReachableKey k) :
      ReachableKey { k with locked_at := none }
  | lock_refreshed (k : IdempotencyKeyRec) (t : Int) (hk : ReachableKey k)
      (hrp : k.recovery_point ≠ IdempotencyKeyRecoveryPoint.FINISHED) :
      ReachableKey { k with last_run_at := t, locked_at := some t }

/-- The record invariant maintained by every operation of the subsystem:
a finished record is unlocked, and the cached response fields are
populated exactly on finished records. -/
def RecordInv (k : IdempotencyKeyRec) : Prop :=
  (k.recovery_point = IdempotencyKeyRecoveryPoint.FINISHED → k.locked_at = none)
  ∧ (k.response_code.isSome = true ↔
      k.recovery_point = IdempotencyKeyRecoveryPoint.FINISHED)
  ∧ (k.response_body.isSome = true ↔
      k.recovery_point = IdempotencyKeyRecoveryPoint.FINISHED)

theorem reachable_inv {k : IdempotencyKeyRec} (h : ReachableKey k) : RecordInv k := by
  induction h with
  | created req ik uid now recId =>
      refine ⟨?_, ?_, ?_⟩ <;>
        simp [newRecord, RecordInv, IdempotencyKeyRecoveryPoint.STARTED,
          IdempotencyKeyRecoveryPoint.FINISHED]
  | recovery_point_applied k name hk hrp hname ih =>
      obtain ⟨_, hc, hb⟩ := ih
      have hne : name ≠ IdempotencyKeyRecoveryPoint.FINISHED := by
        simp [intermediateRecoveryPoints] at hname
        rcases hname with rfl | rfl | rfl | rfl <;> decide
      refine ⟨?_, ?_, ?_⟩ <;>
        simp [ReturnValue.call, hne, hc, hb, hrp]
  | response_applied k status_code data hk hrp ih =>
      refine ⟨?_, ?_, ?_⟩ <;> simp [ReturnValue.call]
  | lock_cleared k hk ih =>
      obtain ⟨_, hc, hb⟩ := ih
      exact ⟨fun _ => rfl, hc, hb⟩
  | lock_refreshed k t hk hrp ih =>
      obtain ⟨_, hc, hb⟩ := ih
      exact ⟨fun hf => absurd hf hrp, hc, hb⟩

/-- Claim C3: when an error is raised inside the scoped block of an
atomic phase, the transaction is rolled back (the outcome state derives
from the pre-phase state, not from the block changes), the lock on the
record is cleared in a best-effort separate transaction (when that
best-effort transaction fails, the surfaced result is unaffected), and
the surfaced result is the retryable HTTP 409 "retry" exactly when the
error is a transaction-serialization conflict, and the HTTP 500
internal-error result otherwise. -/
theorem phase_failure_clears_lock_and_classifies_conflicts
    (pre : MarsState) (e : PyExc) (clearOk : Bool) :
    AtomicPhase.aexit pre (.error e) clearOk =
      .httpError (if clearOk then clearLock pre else pre)
        (if isSerialization e then 409 else 500)
        (if isSerialization e then "retry" else "internal server error")
    ∧ (clearLock pre).ikey = pre.ikey.map (fun k => { k with locked_at := none })
    ∧ (clearLock pre).files = pre.files ∧ (clearLock pre).s3 = pre.s3 := by
  refine ⟨?_, ?_, ?_, ?_⟩
  · cases e <;> simp [AtomicPhase.aexit, isSerialization]
  all_goals cases hp : pre.ikey <;> simp [clearLock, hp]

/-- Claim C6: applying a deferred recovery-point effect sets exactly the
recovery point of the record, leaving every other field (lock, cached
response, request snapshot, identity) unchanged; applying a deferred
response effect sets exactly the recovery point to FINISHED, the lock to
null, and the cached response code and body, leaving every other field
unchanged. -/
theorem deferred_effects_exact_mutations (k : IdempotencyKeyRec)
    (name : String) (status_code : Nat) (data : JsonVal) :
    ((ReturnValue.recoveryPoint name).call k).recovery_point = name
    ∧ ((ReturnValue.recoveryPoint name).call k).locked_at = k.locked_at
    ∧ ((ReturnValue.recoveryPoint name).call k).response_code = k.response_code
    ∧ ((ReturnValue.recoveryPoint name).call k).response_body = k.response_body
    ∧ ((ReturnValue.recoveryPoint name).call k).last_run_at = k.last_run_at
    ∧ ((ReturnValue.recoveryPoint name).call k).request_method = k.request_method
    ∧ ((ReturnValue.recoveryPoint name).call k).request_params = k.request_params
    ∧ ((ReturnValue.recoveryPoint name).call k).request_path = k.request_path
    ∧ ((ReturnValue.recoveryPoint name).call k).request_path_params = k.request_path_params
    ∧ ((ReturnValue.recoveryPoint name).call k).id = k.id
    ∧ ((ReturnValue.recoveryPoint name).call k).idempotency_key = k.idempotency_key
    ∧ ((ReturnValue.recoveryPoint name).call k).user_id = k.user_id
    ∧ ((ReturnValue.response status_code data).call k).recovery_point =
        IdempotencyKeyRecoveryPoint.FINISHED
    ∧ ((ReturnValue.response status_code data).call k).locked_at = none
    ∧ ((ReturnValue.response status_code data).call k).response_code = some status_code
    ∧ ((ReturnValue.response status_code data).call k).response_body = some data
    ∧ ((ReturnValue.response status_code data).call k).last_run_at = k.last_run_at
    ∧ ((ReturnValue.response status_code data).call k).request_method = k.request_method
    ∧ ((ReturnValue.response status_code data).call k).request_params = k.request_params
    ∧ ((ReturnValue.response status_code data).call k).request_path = k.request_path
    ∧ ((ReturnValue.response status_code data).call k).request_path_params =
        k.request_path_params
    ∧ ((ReturnValue.response status_code data).call k).id = k.id
    ∧ ((ReturnValue.response status_code data).call k).idempotency_key = k.idempotency_key
    ∧ ((ReturnValue.response status_code data).call k).user_id = k.user_id := by
  simp [ReturnValue.call]

/-- Claim C8: the deferred-effect slot of an atomic phase is write-once:
once either setter has succeeded, any further call to either setter
raises the RuntimeError contract violation and the slot keeps its first
value; a first call on an empty slot succeeds and stores the effect. -/
theorem effect_slot_write_once (v : ReturnValue) (name : String)
    (status_code : Nat) (data : JsonVal) :
    set_recovery_point (some v) name = .error (.runtimeError "recovery point already set")
    ∧ set_response (some v) status_code data = .error (.runtimeError "response already set")
    ∧ applySet (some v) (fun s => set_recovery_point s name) = some v
    ∧ applySet (some v) (fun s => set_response s status_code data) = some v
    ∧ set_recovery_point none name = .ok (some (.recoveryPoint name))
    ∧ set_response none status_code data = .ok (some (.response status_code data)) := by
  simp [set_recovery_point, set_response, applySet]

/-- Claim C7: for every idempotency record reachable through the
operations of this subsystem, the cached response code and body are
populated exactly when the recovery point is FINISHED. -/
theorem response_cached_iff_finished (k : IdempotencyKeyRec)
    (h : ReachableKey k) :
    (k.response_code.isSome = true ∧ k.response_body.isSome = true) ↔
      k.recovery_point = IdempotencyKeyRecoveryPoint.FINISHED := by
  obtain ⟨_, hc, hb⟩ := reachable_inv h
  constructor
  · rintro ⟨h1, _⟩
    exact hc.mp h1
  · intro hf
    exact ⟨hc.mpr hf, hb.mpr hf⟩

/-- A concrete decoded request body used by the witnesses. -/
def bodyA : JsonVal :=
  .obj (.cons "name" (.str "a.txt") (.cons "content_base64" (.str "aGk=") .nil))

/-- A concrete POST request used by the witnesses. -/
def reqA : RequestInfo :=
  { method := "POST", path := "/files", path_params := [], body_dict := bodyA }

/-- Witness for claim C7 at the freshly created record: neither response
field is populated and the recovery point is STARTED, not FINISHED. -/
theorem response_cached_iff_finished_witness :
    ((newRecord reqA "K1" 1 0 1).response_code.isSome = true
      ∧ (newRecord reqA "K1" 1 0 1).response_body.isSome = true) ↔
      (newRecord reqA "K1" 1 0 1).recovery_point =
        IdempotencyKeyRecoveryPoint.FINISHED :=
  response_cached_iff_finished (newRecord reqA "K1" 1 0 1)
    (ReachableKey.created reqA "K1" 1 0 1)

theorem dispatch_finished (m : String) :
    dispatch IdempotencyKeyRecoveryPoint.FINISHED m = .finish := by
  simp [dispatch, IdempotencyKeyRecoveryPoint.FINISHED,
    IdempotencyKeyRecoveryPoint.STARTED, FileRecoveryPoint.FILE_CREATED,
    FileRecoveryPoint.FILE_UPDATED, FileRecoveryPoint.FILE_UPLOADED_TO_S3,
    FileRecoveryPoint.FILE_DELETED_IN_S3]

/-- Claim C1: a request whose (owner, key, body) triple is identical to
one that already completed (the reachable record is at FINISHED) is
admitted with the record left untouched and no re-lock, the dispatcher
loop exits on its first iteration without running any workflow step, and
the replayed response is the cached response code and body. -/
theorem replay_after_completion_is_pure (st : MarsState)
    (k : IdempotencyKeyRec) (ik : String) (uid : Nat) (now : Int)
    (req : RequestInfo) (clearOk : Bool)
    (hik : st.ikey = some k) (hreach : ReachableKey k)
    (hfin : k.recovery_point = IdempotencyKeyRecoveryPoint.FINISHED)
    (hbody : req.body_dict = k.request_params) :
    start_atomic_phases st ik uid now req clearOk = .ok st
    ∧ executeIter st now clearOk = .done st
    ∧ get_response st = .ok k.response_body k.response_code := by
  have hlock : k.locked_at = none := (reachable_inv hreach).1 hfin
  refine ⟨?_, ?_, ?_⟩
  · simp [start_atomic_phases, startAtomicPhasesBlock, hik, hbody,
      pyJsonEq_refl, hlock, lockActive, AtomicPhase.aexit]
  · simp [executeIter, hik, hfin, dispatch_finished]
  · simp [get_response, hik, hfin]

/-- The record left by a completed run: the final response effect applied
to the record the admission protocol created. -/
def kFin : IdempotencyKeyRec :=
  (ReturnValue.response 200 JsonVal.null).call (newRecord reqA "K1" 1 0 1)

/-- The store after that completed run. -/
def stFin : MarsState := { ikey := some kFin, files := [], s3 := [], nextId := 2 }

/-- Witness for claim C1: replaying the identical request against the
concrete completed record is admitted untouched, dispatches no step, and
returns the cached response. -/
theorem replay_after_completion_is_pure_witness :
    start_atomic_phases stFin "K1" 1 50 reqA true = .ok stFin
    ∧ executeIter stFin 50 true = .done stFin
    ∧ get_response stFin = .ok kFin.response_body kFin.response_code :=
  replay_after_completion_is_pure stFin kFin "K1" 1 50 reqA true rfl
    (ReachableKey.response_applied (newRecord reqA "K1" 1 0 1) 200 JsonVal.null
      (ReachableKey.created reqA "K1" 1 0 1) (by decide))
    rfl rfl

/-- Claim C9: for every (recovery point, request method) pair matching no
arm of the dispatch table, the dispatcher selects the default arm and the
loop iteration raises the fatal internal error; it neither returns a
response nor exits the loop normally. -/
theorem undefined_pair_raises_fatal (st : MarsState) (k : IdempotencyKeyRec)
    (now : Int) (clearOk : Bool) (hik : st.ikey = some k)
    (h : hasStep k.recovery_point k.request_method = false) :
    dispatch k.recovery_point k.request_method = .unknown
    ∧ executeIter st now clearOk =
        .fatal ("Unknown recovery point: " ++ k.recovery_point) := by
  simp [hasStep] at h
  obtain ⟨⟨⟨⟨⟨hS, hB⟩, hC⟩, hD⟩, hE⟩, hF⟩ := h
  have hd : dispatch k.recovery_point k.request_method = .unknown := by
    by_cases hrp : k.recovery_point = IdempotencyKeyRecoveryPoint.STARTED
    · obtain ⟨⟨h1, h2⟩, h3⟩ := hS hrp
      simp [dispatch, hrp, h1, h2, h3, hB, hC, hD, hE, hF]
      all_goals decide
    · simp [dispatch, hrp, hB, hC, hD, hE, hF]
  exact ⟨hd, by simp [executeIter, hik, hd]⟩

/-- A record parked at a recovery point no dispatch arm covers. -/
def kBogus : IdempotencyKeyRec :=
  { id := 1, idempotency_key := "K1", user_id := 1, last_run_at := 0,
    locked_at := some 0, request_method := "POST",
    request_params := bodyA, request_path := "/files",
    request_path_params := [], response_code := none, response_body := none,
    recovery_point := "NOT_A_POINT" }

/-- Store holding that record. -/
def stBogus : MarsState := { ikey := some kBogus, files := [], s3 := [], nextId := 2 }

/-- Witness for claim C9 at the concrete undefined pair
("NOT_A_POINT", "POST"). -/
theorem undefined_pair_raises_fatal_witness :
    dispatch kBogus.recovery_point kBogus.request_method = .unknown
    ∧ executeIter stBogus 0 true =
        .fatal ("Unknown recovery point: " ++ kBogus.recovery_point) :=
  undefined_pair_raises_fatal stBogus kBogus 0 true rfl (by decide)

/-- Claim C10: duplicate-request detection at admission compares the
decoded JSON value of the inbound body against the stored request
parameters structurally (Python dict equality, insensitive to object-key
order and to the byte-level presentation the decoder discarded): any two
bodies decoding to Python-equal values drive the admission block to the
same result, a body decoding to a value Python-equal to the stored
parameters never raises the param-mismatch rejection, and a body
decoding to an unequal value always raises it. -/
theorem duplicate_detection_is_structural (st : MarsState)
    (k : IdempotencyKeyRec) (ik : String) (uid : Nat) (now : Int)
    (req1 req2 : RequestInfo) (hik : st.ikey = some k) :
    (pyJsonEq req1.body_dict req2.body_dict = true →
      startAtomicPhasesBlock st ik uid now req1 =
        startAtomicPhasesBlock st ik uid now req2)
    ∧ (pyJsonEq k.request_params req1.body_dict = false →
      startAtomicPhasesBlock st ik uid now req1 =
        .error (.httpException 409 "param mismatch"))
    ∧ (pyJsonEq k.request_params req1.body_dict = true →
      startAtomicPhasesBlock st ik uid now req1 ≠
        .error (.httpException 409 "param mismatch")) := by
  refine ⟨?_, ?_, ?_⟩
  · intro h
    have hc : pyJsonEq k.request_params req1.body_dict =
        pyJsonEq k.request_params req2.body_dict := by
      unfold pyJsonEq
      rw [pyJsonEq_normalize_eq h]
    simp only [startAtomicPhasesBlock, hik]
    rw [hc]
  · intro h
    simp [startAtomicPhasesBlock, hik, h]
  · intro h
    simp only [startAtomicPhasesBlock, hik, h, if_true]
    split <;> simp

/-- The stored record for the C10 witness: the stored parameters are the
object with keys "name" then "content_base64". -/
def kDup : IdempotencyKeyRec :=
  { id := 1, idempotency_key := "K1", user_id := 1, last_run_at := 0,
    locked_at := none, request_method := "POST",
    request_params := bodyA, request_path := "/files",
    request_path_params := [], response_code := none, response_body := none,
    recovery_point := IdempotencyKeyRecoveryPoint.STARTED }

/-- Store holding that record. -/
def stDup : MarsState := { ikey := some kDup, files := [], s3 := [], nextId := 2 }

/-- The same decoded body with its object keys in the opposite order. -/
def bodyAReordered : JsonVal :=
  .obj (.cons "content_base64" (.str "aGk=") (.cons "name" (.str "a.txt") .nil))

/-- Request carrying the reordered body. -/
def reqAReordered : RequestInfo :=
  { method := "POST", path := "/files", path_params := [],
    body_dict := bodyAReordered }

/-- A request with the same key but a different decoded body, used by the
C10 witness to exhibit a rejected unequal body. -/
def reqOther : RequestInfo :=
  { method := "POST", path := "/files", path_params := [],
    body_dict := .obj (.cons "name" (.str "b.txt") .nil) }

/-- Witness for claim C10: a body whose object keys arrive in a different
order than the stored parameters decodes to a Python-equal value, drives
admission to the same result as the stored order, and is not rejected as
a param mismatch, while a body decoding to an unequal value is rejected. -/
theorem duplicate_detection_is_structural_witness :
    (startAtomicPhasesBlock stDup "K1" 1 0 reqAReordered =
      startAtomicPhasesBlock stDup "K1" 1 0 reqA)
    ∧ (startAtomicPhasesBlock stDup "K1" 1 0 reqAReordered ≠
      .error (.httpException 409 "param mismatch"))
    ∧ (startAtomicPhasesBlock stDup "K1" 1 0 reqOther =
      .error (.httpException 409 "param mismatch")) :=
  ⟨(duplicate_detection_is_structural stDup kDup "K1" 1 0 reqAReordered reqA
      rfl).1 (by decide),
   (duplicate_detection_is_structural stDup kDup "K1" 1 0 reqAReordered reqA
      rfl).2.2 (by decide),
   (duplicate_detection_is_structural stDup kDup "K1" 1 0 reqOther reqA
      rfl).2.1 (by decide)⟩

/-- A record mid-workflow whose lock is currently held
(locked at t = 100 = now). -/
def kStarted : IdempotencyKeyRec :=
  { id := 1, idempotency_key := "K1", user_id := 1, last_run_at := 0,
    locked_at := some 100, request_method := "POST", request_params := bodyA,
    request_path := "/files", request_path_params := [],
    response_code := none, response_body := none,
    recovery_point := IdempotencyKeyRecoveryPoint.STARTED }

/-- Store holding that record. -/
def stStarted : MarsState :=
  { ikey := some kStarted, files := [], s3 := [], nextId := 2 }

/-- A request with the same key but a different decoded body. -/
def reqMismatch : RequestInfo :=
  { method := "POST", path := "/files", path_params := [],
    body_dict := .obj (.cons "name" (.str "b.txt") .nil) }

/-- Claim C2, evaluated on the code at a failing input: a same-key
different-body request against a locked STARTED record.  The
`HTTPException(409, "param mismatch")` raised inside the admission block
reaches `AtomicPhase.__aexit__` as the active exception, which clears
`lockedAt` on the record (a state mutation) and then raises
`HTTPException(500, "internal server error")` in its place, so the
surfaced result is the 500 internal error, not the 409 param-mismatch
rejection, and the lock the record held is gone. -/
theorem param_mismatch_surfaces_500_and_clears_lock :
    start_atomic_phases stStarted "K1" 1 100 reqMismatch true =
      .httpError
        { stStarted with ikey := some { kStarted with locked_at := none } }
        500 "internal server error"
    ∧ kStarted.locked_at = some 100
    ∧ ({ kStarted with locked_at := none } : IdempotencyKeyRec).locked_at = none := by
  refine ⟨by decide, rfl, rfl⟩

/-- The locked record with a lease still inside the 90-second window at
now = 100 (locked at t = 95). -/
def kLockedFresh : IdempotencyKeyRec := { kStarted with locked_at := some 95 }

/-- Store holding the freshly locked record. -/
def stLockedFresh : MarsState :=
  { ikey := some kLockedFresh, files := [], s3 := [], nextId := 2 }

/-- The locked record whose lease expired (locked at t = 5, now = 100). -/
def kLockedStale : IdempotencyKeyRec := { kStarted with locked_at := some 5 }

/-- Store holding the stale-locked record. -/
def stLockedStale : MarsState :=
  { ikey := some kLockedStale, files := [], s3 := [], nextId := 2 }

/-- A request identical to the stored one. -/
def reqMatch : RequestInfo :=
  { method := "POST", path := "/files", path_params := [], body_dict := bodyA }

/-- Claim C5, evaluated on the code at failing inputs.  In-window lock:
the `HTTPException(409, "request in progress")` raised inside the
admission block is replaced by `AtomicPhase.__aexit__` with the 500
internal error, after clearing the very lock that was protecting the
in-flight execution.  Expired lock: admission proceeds, but the
`key.update(last_run_at=..., locked_at=...)` refresh is applied to a
detached instance loaded by `get_idempotency_key` in an already-closed
session, so the committed record still carries `locked_at = 5` and
`last_run_at = 0` — nothing is refreshed to now. -/
theorem inflight_lock_conflict_surfaces_500_and_unlocks :
    start_atomic_phases stLockedFresh "K1" 1 100 reqMatch true =
      .httpError
        { stLockedFresh with ikey := some { kLockedFresh with locked_at := none } }
        500 "internal server error"
    ∧ start_atomic_phases stLockedStale "K1" 1 100 reqMatch true = .ok stLockedStale
    ∧ kLockedStale.locked_at = some 5
    ∧ kLockedStale.last_run_at = 0 := by
  refine ⟨by decide, by decide, rfl, rfl⟩

/-- The DELETE-workflow record parked at FILE_DELETED_IN_S3. -/
def kDel : IdempotencyKeyRec :=
  { id := 1, idempotency_key := "K2", user_id := 1, last_run_at := 0,
    locked_at := some 100, request_method := "DELETE",
    request_params := .obj .nil, request_path := "/files/7",
    request_path_params := [("file_id", "7")],
    response_code := none, response_body := none,
    recovery_point := FileRecoveryPoint.FILE_DELETED_IN_S3 }

/-- The metadata row of the file being deleted. -/
def fDel : FileRec :=
  { id := 7, idempotency_key_id := 1, user_id := 1, name := "a.txt",
    s3_key := "bucket/9/a.txt", upload_completed_at := none }

/-- Store before the final DELETE step: the metadata row still exists. -/
def stDel : MarsState := { ikey := some kDel, files := [fDel], s3 := [], nextId := 8 }

/-- Store after `_delete_file_db` commits: the row is gone but the
record is untouched. -/
def stDel2 : MarsState := { ikey := some kDel, files := [], s3 := [], nextId := 8 }

/-- Claim C4, evaluated on the code at the failing input: the
FILE_DELETED step (`_delete_file_db`) deletes the metadata row but
registers no deferred effect at all — neither a cached response nor a
recovery-point advance — so the record stays at FILE_DELETED_IN_S3 with
no cached response, and the very next loop iteration re-dispatches the
same step, finds no row, raises the "Bug!" RuntimeError, and surfaces
the 500 internal error; for any fuel the loop never reaches FINISHED. -/
theorem delete_final_step_registers_no_effect :
    HandleFileAction.delete_file_db stDel kDel = .ok (stDel2, none)
    ∧ executeIter stDel 100 true = .next stDel2
    ∧ stDel2.ikey = some kDel
    ∧ kDel.recovery_point = FileRecoveryPoint.FILE_DELETED_IN_S3
    ∧ kDel.response_code = none
    ∧ executeIter stDel2 100 true =
        .httpError { stDel2 with ikey := some { kDel with locked_at := none } }
          500 "internal server error"
    ∧ (∀ n : Nat, executeLoop (n + 2) stDel 100 true =
        .httpError { stDel2 with ikey := some { kDel with locked_at := none } }
          500 "internal server error") := by
  refine ⟨rfl, by decide, rfl, rfl, rfl, by decide, ?_⟩
  intro n
  rfl

end Mars
